import Mathlib

/-!
Shallow embedding of `src/api/client.py` from the `python-preprocessing`
repository: the functions `fetch_posts` (lines 18-70) and
`fetch_post_paginated` (lines 77-110), together with the module-level
constants (lines 11-15).

Python name-resolution semantics are modelled explicitly, because the
source contains reads of names that are never bound:
  * a function-local name that is assigned somewhere in the function body
    is a *local*; reading it before its first assignment raises
    `UnboundLocalError` (modelled by giving such locals type `Option _`,
    with `none` meaning "not yet bound");
  * a name never assigned in the function body is resolved against the
    module's globals; a miss raises `NameError` (modelled by an explicit
    list of the module-level names that `client.py` defines);
  * an attribute access on an object whose class does not define the
    attribute raises `AttributeError` (modelled by explicit attribute
    lists for the `requests` module and for `HTTPError` instances).
-/

namespace Client

/-- A record of the payload: the code treats records as opaque JSON
objects, modelled as opaque naturals. -/
abbrev Rec := Nat

/-- Python exceptions that can escape the embedded code, plus
`valueError`, the exception Python programs conventionally raise for a
caller-contract violation (never raised by this code, present so that
"raises a contract-violation error" is statable). -/
inductive PyExc where
  | unboundLocalError (name : String)
  | nameError (name : String)
  | attributeError (attr : String)
  | externalAPIError (msg : String)
  | valueError (msg : String)
  deriving DecidableEq, Repr

/-- Outcome of one `requests.get` call, as supplied by the transport:
either a `Response` with a status code and a JSON array body, or a
network-level failure (connection refused / DNS / timeout), which
`requests` raises as a `RequestException` that is not an `HTTPError`. -/
inductive Resp where
  | response (status : Nat) (body : List Rec)
  | netErr
  deriving DecidableEq, Repr

/-- The `requests.exceptions.RequestException` values the embedded code
can catch: an `HTTPError` carrying `e.response.status_code` (collapsed
to the status; `none` when no response is attached), or a non-`HTTPError`
transport exception. -/
inductive ReqExc where
  | httpError (status : Option Nat)
  | netExc
  deriving DecidableEq, Repr

/-- Attributes of the `requests` module that the code could reach
(`requests.exception` on line 33 is NOT among them: the module defines
`exceptions`, with an s). -/
def requestsModuleAttrs : List String :=
  ["get", "post", "put", "delete", "head", "options", "request",
   "Session", "Response", "exceptions", "status_codes", "models"]

/-- Attributes defined on a `requests.exceptions.HTTPError` instance
(`e.repsonse` on line 53 is NOT among them: the class defines
`response`). -/
def httpErrorAttrs : List String :=
  ["response", "request", "args"]

/-- Module-level names bound in `src/api/client.py` (its globals). The
name `url` is NOT among them: `url` is only a local of `fetch_posts`. -/
def clientGlobals : List String :=
  ["requests", "logging", "time", "ExternalAPIError", "logger",
   "BASE_URL", "MAX_RETRIES", "INITIAL_BACKOFF", "MAX_BACKOFF",
   "fetch_posts", "fetch_post_paginated"]

/-- Line 13. -/
def MAX_RETRIES : Nat := 3

/-- Line 14 (seconds). -/
def INITIAL_BACKOFF : Nat := 1

/-- Line 15 (seconds). -/
def MAX_BACKOFF : Nat := 8

/-- Attribute lookup `e.<attr>` on an `HTTPError` instance whose
`response` object is collapsed to `Option Nat` (its `status_code`;
`none` when the error carries no response). -/
def httpErrorGetattr (respStatus : Option Nat) (attr : String) :
    Except PyExc (Option Nat) :=
  if httpErrorAttrs.contains attr then
    .ok respStatus
  else
    .error (.attributeError attr)

/-- Line 55's condition `status and 400 <= status < 500 and status != 429`
(Python truthiness: `None` and `0` are falsy). -/
def isNonRetryableStatus (status : Option Nat) : Bool :=
  match status with
  | none => false
  | some s => s != 0 && 400 ≤ s && s < 500 && s != 429

/-- Lines 43-57: the fault classification embedded in `fetch_posts`'s
`except requests.exceptions.RequestException` handler. `retryable`
defaults to `True`; if the caught exception is an `HTTPError`, line 53
evaluates `getattr(e.repsonse, "status_code", None)` — the inner
attribute access `e.repsonse` is performed first, on an instance that
has no such attribute. -/
def classifyFault (e : ReqExc) : Except PyExc Bool :=
  let retryable := true
  match e with
  | .httpError respStatus =>
    match httpErrorGetattr respStatus "repsonse" with
    | .error exc => .error exc
    | .ok respObj =>
      -- `getattr(<resp obj>, "status_code", None)`; the response object
      -- is already collapsed to its status code.
      let status := respObj
      if isNonRetryableStatus status then .ok false else .ok retryable
  | .netExc => .ok retryable

/-- Result of the `try` body of one attempt (lines 31-38): the function
returned `response.json()`, or an exception was raised — either a
`RequestException` (caught by line 41) or some other Python exception
(not caught). -/
inductive TryOut where
  | returned (payload : List Rec)
  | raisedReq (e : ReqExc)
  | raisedPy (e : PyExc)
  deriving DecidableEq, Repr

/-- Lines 31-38: perform one HTTP attempt. On status 429 the code
evaluates `requests.exception.HTTPError` (line 33) — an attribute lookup
on the `requests` module — before it can raise anything; otherwise
`response.raise_for_status()` raises `HTTPError` exactly for statuses in
[400, 600). -/
def attemptTry (r : Resp) : TryOut :=
  match r with
  | .netErr => .raisedReq .netExc
  | .response st body =>
    if st = 429 then
      if requestsModuleAttrs.contains "exception" then
        .raisedReq (.httpError (some st))
      else
        .raisedPy (.attributeError "exception")
    else if 400 ≤ st ∧ st < 600 then
      .raisedReq (.httpError (some st))
    else
      .returned body

/-- The local variables of `fetch_posts` that the retry loop reads and
writes. `attempt` and `backoff` are locals (each is assigned inside the
function body) that are unbound when the loop is first entered; only
`attempts` is initialized (line 23). -/
structure Locals where
  attempts : Nat
  attempt : Option Nat
  backoff : Option Nat
  deriving DecidableEq, Repr

/-- Observable side effects of a `fetch_posts` call: how many times
`requests.get` was invoked, and the successive arguments passed to
`time.sleep`. -/
structure Trace where
  calls : Nat
  sleeps : List Nat
  deriving DecidableEq, Repr

/-- How a `fetch_posts` call ends: `ok` for `return response.json()`,
`noneReturn` for falling off the `while` loop (Python returns `None`),
`exc` for an uncaught exception, `hung` for fuel exhaustion (models
non-termination of the loop). -/
inductive FPOut where
  | ok (payload : List Rec)
  | noneReturn
  | exc (e : PyExc)
  | hung
  deriving DecidableEq, Repr

/-- Lines 25-70: the `while attempts < MAX_RETRIES` retry loop of
`fetch_posts`. The transport `op` maps the index of the HTTP call (0 for
the first `requests.get`) to its outcome. Statements in source order:
line 26 `attempt += 1` (a read of the local `attempt` followed by an
assignment), line 27 `backoff = INITIAL_BACKOFF`, lines 31-38 the `try`
body, lines 41-70 the handler: classify, raise on non-retryable, raise
when `attempt >= MAX_RETRIES`, else `time.sleep(backoff)` and
`backoff = min(backoff*2, MAX_BACKOFF)`. -/
def fetchPostsLoop (op : Nat → Resp) (l : Locals) (t : Trace) :
    Nat → FPOut × Trace
  | 0 => (.hung, t)
  | fuel+1 =>
    if l.attempts < MAX_RETRIES then
      match l.attempt with
      | none => (.exc (.unboundLocalError "attempt"), t)
      | some a =>
        let l := { l with attempt := some (a + 1), backoff := some INITIAL_BACKOFF }
        let resp := op t.calls
        let t := { t with calls := t.calls + 1 }
        match attemptTry resp with
        | .returned payload => (.ok payload, t)
        | .raisedPy e => (.exc e, t)
        | .raisedReq e =>
          match classifyFault e with
          | .error exc => (.exc exc, t)
          | .ok retryable =>
            if !retryable then
              (.exc (.externalAPIError "External API rejected the request"), t)
            else if a + 1 ≥ MAX_RETRIES then
              (.exc (.externalAPIError "External API failed after retries"), t)
            else
              match l.backoff with
              | none => (.exc (.unboundLocalError "backoff"), t)
              | some b =>
                let t := { t with sleeps := t.sleeps ++ [b] }
                let l := { l with backoff := some (min (b * 2) MAX_BACKOFF) }
                fetchPostsLoop op l t fuel
    else
      (.noneReturn, t)

/-- Lines 18-70: `fetch_posts`. Initializes `attempts = 0` (line 23);
the locals `attempt` and `backoff` are unbound at that point. The loop
can run at most `MAX_RETRIES` iterations (each iteration either returns,
raises, or increments `attempt`, and iterations with
`attempt >= MAX_RETRIES` raise), so `MAX_RETRIES + 1` fuel is ample. -/
def fetch_posts (op : Nat → Resp) : FPOut × Trace :=
  fetchPostsLoop op
    { attempts := 0, attempt := none, backoff := none }
    { calls := 0, sleeps := [] }
    (MAX_RETRIES + 1)

/-- How the `fetch_post_paginated` generator ends once a consumer starts
pulling elements: `done` for the `break` on an empty page (the generator
then terminates normally), `exc` for an exception propagating out of the
generator, `hung` for fuel exhaustion (models an unending sequence). -/
inductive GenOut where
  | done
  | exc (e : PyExc)
  | hung
  deriving DecidableEq, Repr

/-- Lines 90-97: the `try` body of one page request followed by the
handler. The page request `requests.get(url, params=params,
timeout=timeout)` either raises a transport-level `RequestException`
(`netErr`), or returns a response on which `raise_for_status()` raises
`HTTPError` exactly for statuses in [400, 600); the handler catches
every `RequestException` and re-raises `ExternalAPIError` — there is no
retry. Otherwise `data = response.json()` is the page body. -/
def pageTry (r : Resp) : Except PyExc (List Rec) :=
  match r with
  | .netErr => .error (.externalAPIError "API call failed")
  | .response st body =>
    if 400 ≤ st ∧ st < 600 then
      .error (.externalAPIError "API call failed")
    else
      .ok body

/-- Lines 81-110: the `while True` loop of the `fetch_post_paginated`
generator. The transport maps `(page, page_size)` — the `_page` and
`_limit` request params of line 83 — to the outcome of that page's
`requests.get`. Before the call can be issued, its first argument `url`
must be resolved: `url` is assigned nowhere in this function, so it is
looked up among the module's globals (a miss raises `NameError`). An
empty page breaks the loop; a non-empty page yields each record in
order, then `page += 1`. Returns the records yielded so far, the number
of HTTP page requests made, and how the sequence ended. -/
def fetchPaginatedLoop (transport : Nat → Int → Resp) (page_size : Int)
    (page : Nat) (yielded : List Rec) (calls : Nat) :
    Nat → List Rec × Nat × GenOut
  | 0 => (yielded, calls, .hung)
  | fuel+1 =>
    if clientGlobals.contains "url" then
      let resp := transport page page_size
      let calls := calls + 1
      match pageTry resp with
      | .error e => (yielded, calls, .exc e)
      | .ok data =>
        if data = [] then
          (yielded, calls, .done)
        else
          fetchPaginatedLoop transport page_size (page + 1)
            (yielded ++ data) calls fuel
    else
      (yielded, calls, .exc (.nameError "url"))

/-- Lines 77-110: `fetch_post_paginated(page_size=10)`. A generator: no
statement of its body runs until the consumer demands the first element;
the result describes what the consumer observes from then on. `page` is
initialized to 1 (line 78); `fuel` bounds the number of loop iterations
modelled. -/
def fetch_post_paginated (transport : Nat → Int → Resp)
    (page_size : Int) (fuel : Nat) : List Rec × Nat × GenOut :=
  fetchPaginatedLoop transport page_size 1 [] 0 fuel

/-- A fake transport whose successive pages have sizes 10, 10, 3, 0: the
scenario of the pagination test property. -/
def pagesTransportC6 : Nat → Int → Resp := fun page _ =>
  if page = 1 then .response 200 [1, 2, 3, 4, 5, 6, 7, 8, 9, 10]
  else if page = 2 then .response 200 [11, 12, 13, 14, 15, 16, 17, 18, 19, 20]
  else if page = 3 then .response 200 [21, 22, 23]
  else .response 200 []

/-- A fake transport where page 1 succeeds with 10 records and page 2
fails with a retryable (network-level) fault on every attempt. -/
def pagesTransportC8 : Nat → Int → Resp := fun page _ =>
  if page = 1 then .response 200 [1, 2, 3, 4, 5, 6, 7, 8, 9, 10]
  else .netErr

/-- C9: for every transport behavior, `fetch_posts` raises an unhandled
`UnboundLocalError` before issuing any HTTP request: the first statement
of the loop body, `attempt += 1` (line 26), reads the local `attempt`,
which is never initialized (only `attempts` is set to 0 on line 23). The
call count 0 shows no HTTP request is issued, and the outcome
`exc (unboundLocalError "attempt")` is neither `ok _` (a returned
payload) nor `exc (externalAPIError _)`. -/
theorem fetch_posts_always_unbound_local (op : Nat → Resp) :
    fetch_posts op =
      (.exc (.unboundLocalError "attempt"), { calls := 0, sleeps := [] }) :=
  rfl

/-- C10: for every page_size and every transport, demanding the first
element of the `fetch_post_paginated` generator evaluates the name
`url` — assigned nowhere in the function and absent from the module's
globals — raising a `NameError` that the except clause (which catches
only `requests.exceptions.RequestException`) does not intercept: the
sequence yields no record (`[]`), makes no HTTP request (0 calls), and
ends in `exc (nameError "url")`, not `exc (externalAPIError _)`. -/
theorem fetch_post_paginated_always_name_error
    (transport : Nat → Int → Resp) (page_size : Int) (n : Nat) :
    fetch_post_paginated transport page_size (n + 1) =
      ([], 0, .exc (.nameError "url")) :=
  rfl

/-- C1: evaluation at the failing input `k = 0` — a transport that
succeeds with HTTP 200 and payload `[1, 2, 3]` on the very first
attempt. The claim says `fetch_posts` returns the success payload after
exactly `k + 1 = 1` invocation; the code instead raises
`UnboundLocalError` after 0 invocations, so no success payload is ever
returned for any retryable-failure count `k`. -/
theorem fetch_posts_c1_bug_eval :
    fetch_posts (fun _ => .response 200 [1, 2, 3]) =
      (.exc (.unboundLocalError "attempt"), { calls := 0, sleeps := [] }) :=
  rfl

/-- C2: evaluation of the embedded fault classification (lines 43-57) at
the failing inputs. For an `HTTPError` — status 500, status 429, or no
status available — line 53's attribute access `e.repsonse` raises
`AttributeError` (the instance attribute is spelled `response`), so the
classification crashes instead of marking the failure
`retryable = true`. Only the non-`HTTPError` branch (network-level
failures and other transport exceptions) reaches `retryable = true`.
In situ the classifier is unreachable anyway: `fetch_posts` raises
`UnboundLocalError` before any attempt can fail. -/
theorem classifyFault_c2_bug_eval :
    classifyFault (.httpError (some 500)) = .error (.attributeError "repsonse") ∧
    classifyFault (.httpError (some 429)) = .error (.attributeError "repsonse") ∧
    classifyFault (.httpError none) = .error (.attributeError "repsonse") ∧
    classifyFault .netExc = .ok true ∧
    fetch_posts (fun _ => .response 500 []) =
      (.exc (.unboundLocalError "attempt"), { calls := 0, sleeps := [] }) :=
  ⟨rfl, rfl, rfl, rfl, rfl⟩

/-- C3: evaluation at the failing input — a transport answering HTTP 404
on the first attempt. The claim says `fetch_posts` makes exactly one
invocation and fails with `ExternalAPIError`; the code makes 0
invocations and raises `UnboundLocalError`. Moreover, even the
classification of a 404 `HTTPError` in isolation crashes with
`AttributeError` at `e.repsonse` instead of computing
`retryable = false`. -/
theorem fetch_posts_c3_bug_eval :
    fetch_posts (fun _ => .response 404 []) =
      (.exc (.unboundLocalError "attempt"), { calls := 0, sleeps := [] }) ∧
    classifyFault (.httpError (some 404)) = .error (.attributeError "repsonse") :=
  ⟨rfl, rfl⟩

/-- C4: evaluation at the failing input — a transport that fails with a
network-level (retryable) fault on every attempt. The claim says
`fetch_posts` makes exactly `MAX_RETRIES = 3` invocations and then
fails with `ExternalAPIError` marking retries exhausted; the code makes
0 invocations and raises `UnboundLocalError` instead. -/
theorem fetch_posts_c4_bug_eval :
    fetch_posts (fun _ => .netErr) =
      (.exc (.unboundLocalError "attempt"), { calls := 0, sleeps := [] }) ∧
    MAX_RETRIES = 3 :=
  ⟨rfl, rfl⟩

/-- C5: evaluation at the failing input — a transport that fails
retryably on every attempt, with `INITIAL_BACKOFF = 1` and
`MAX_BACKOFF = 8`. The claim says the successive sleeps are
`1, 2, 4, 8, 8, ...`; the code never sleeps at all (`sleeps = []`),
raising `UnboundLocalError` before the first attempt. (Independently,
line 27 re-assigns `backoff = INITIAL_BACKOFF` at the top of every loop
iteration, discarding line 70's doubling.) -/
theorem fetch_posts_c5_bug_eval :
    (fetch_posts (fun _ => .netErr)).2.sleeps = [] ∧
    (fetch_posts (fun _ => .netErr)).1 = .exc (.unboundLocalError "attempt") ∧
    INITIAL_BACKOFF = 1 ∧ MAX_BACKOFF = 8 :=
  ⟨rfl, rfl, rfl, rfl⟩

/-- C6: evaluation at the failing input — the fake transport with page
sizes `[10, 10, 3, 0]` and `page_size = 10`. The claim says the
sequence yields exactly 23 records over exactly 4 page requests; the
code yields 0 records, makes 0 page requests, and raises `NameError`
on the undefined name `url` as soon as the first element is demanded. -/
theorem fetch_post_paginated_c6_bug_eval :
    fetch_post_paginated pagesTransportC6 10 6 =
      ([], 0, .exc (.nameError "url")) :=
  rfl

/-- C7 counterexample: at the concrete input `page_size = 0`, the
generator does not raise a caller-contract-violation error (such as a
`ValueError`): the exception is `NameError` on the undefined name
`url` — the very same outcome as for the valid `page_size = 10` — so
no `page_size` validation occurs at all. -/
theorem fetch_post_paginated_c7_counterexample :
    fetch_post_paginated (fun _ _ => .response 200 []) 0 4 =
      ([], 0, .exc (.nameError "url")) ∧
    fetch_post_paginated (fun _ _ => .response 200 []) 10 4 =
      ([], 0, .exc (.nameError "url")) ∧
    GenOut.exc (.nameError "url") ≠
      GenOut.exc (.valueError "page_size must be positive") :=
  ⟨rfl, rfl, by decide⟩

/-- C7 amended: for every `page_size ≤ 0`, `fetch_post_paginated`
issues no HTTP request, but not because of any caller-contract check:
demanding the first element raises `NameError` on the undefined name
`url` (exactly as it does for every other `page_size`). -/
theorem fetch_post_paginated_c7_amended (transport : Nat → Int → Resp)
    (page_size : Int) (n : Nat) (_hps : page_size ≤ 0) :
    fetch_post_paginated transport page_size (n + 1) =
      ([], 0, .exc (.nameError "url")) :=
  rfl

/-- Witness for the C7 amended theorem at `page_size = 0`. -/
theorem fetch_post_paginated_c7_amended_witness :
    (0 : Int) ≤ 0 ∧
    fetch_post_paginated (fun _ _ => .response 200 [1]) 0 3 =
      ([], 0, .exc (.nameError "url")) :=
  ⟨le_refl 0,
   fetch_post_paginated_c7_amended (fun _ _ => .response 200 [1]) 0 2 (le_refl 0)⟩

/-- C8 counterexample: at the concrete input — page 1 succeeds with 10
records, page 2 fails retryably on every attempt, `page_size = 10` —
the sequence yields the empty list, not the 10 records of page 1, and
ends in `NameError` after 0 page requests, not in an exhausted-retries
`ExternalAPIError` after page 1. -/
theorem fetch_post_paginated_c8_counterexample :
    fetch_post_paginated pagesTransportC8 10 6 =
      ([], 0, .exc (.nameError "url")) ∧
    ([] : List Rec) ≠ [1, 2, 3, 4, 5, 6, 7, 8, 9, 10] :=
  ⟨rfl, by decide⟩

/-- C8 amended: against the transport where page 1 succeeds with 10
records and page 2 fails retryably forever, the sequence yields no
records at all: demanding the first element raises `NameError` on the
undefined name `url` before any page request (and `fetch_post_paginated`
contains no retry in any case — each page gets a single attempt whose
`RequestException` is translated to `ExternalAPIError` immediately). -/
theorem fetch_post_paginated_c8_amended (n : Nat) :
    fetch_post_paginated pagesTransportC8 10 (n + 1) =
      ([], 0, .exc (.nameError "url")) :=
  rfl

end Client
